import Mathlib

/-!
Verification of the `c2daisy` generator (`hvcc/generators/c2daisy/c2daisy.py`).

The development shallowly embeds the logic of `c2daisy.compile`:
pure configuration resolution (sample rate ladder, blocksize clamp,
libdaisy path), the MIDI-out parameter filter, the choice of board-header
resolver, the materialization of the output tree (modelled as explicit
state passing over a finite-map filesystem), and the generation report
envelope.  Python `dict.get` is modelled with `Option`, Python truthiness
of the retrieved values is made explicit where the code relies on it.
-/

namespace C2Daisy

/-! ## Quantization policy (c2daisy.py lines 92-110) -/

/-- Sample-rate ladder from `c2daisy.compile`:
`if samplerate >= 96000: 96000 elif >= 48000: 48000 elif >= 32000: 32000
elif >= 16000: 16000 else: 8000`. -/
def resolve_samplerate (r : Int) : Int :=
  if r ≥ 96000 then 96000
  else if r ≥ 48000 then 48000
  else if r ≥ 32000 then 32000
  else if r ≥ 16000 then 16000
  else 8000

/-- The five supported sample-rate tiers. -/
def tiers : List Int := [8000, 16000, 32000, 48000, 96000]

/-- Blocksize resolution from `c2daisy.compile`:
`blocksize = daisy_meta.get('blocksize'); if blocksize:
component_glue['blocksize'] = max(min(256, blocksize), 1) else: None`.
`none` models an absent key; Python `if blocksize:` is falsy both for
`None` and for the integer `0`. -/
def resolve_blocksize (b : Option Int) : Option Int :=
  match b with
  | none => none
  | some v => if v ≠ 0 then some (max (min 256 v) 1) else none

/-! ## MIDI output parameter filter (c2daisy.py lines 13-22 and 77-79) -/

/-- The reserved protocol-event names (`hv_midi_messages` in c2daisy.py).
The source holds them in a Python `set`; only membership is ever used, so a
list is an adequate embedding. -/
def hv_midi_messages : List String :=
  ["__hv_noteout", "__hv_ctlout", "__hv_polytouchout", "__hv_pgmout",
   "__hv_touchout", "__hv_bendout", "__hv_midiout", "__hv_midioutport"]

/-- A value yielded by Python iteration over an externs parameter entry:
either a string or a non-string object (the parameter's attribute record).
Python `==` between a string and a non-string object is `False`, which
`pyEq` reproduces. -/
inductive PyVal where
  | str : String → PyVal
  | obj : Nat → PyVal
deriving DecidableEq, Repr

/-- Python `==` on the values above. -/
def pyEq : PyVal → PyVal → Bool
  | .str a, .str b => a == b
  | .obj a, .obj b => a == b
  | _, _ => false

/-- Modelled from the spec: a `ParameterDescriptor` of the compiled patch
(`name, direction, type tag`).  The producer of `externs['parameters']` is
outside this repository slice; an `out` entry is a pair
`(name, attributes)` whose Python iteration (`for y in t` on line 79)
yields the name string followed by the non-string attribute object, here
abstracted as a `Nat` tag. -/
structure Param where
  name : String
  attrs : Nat
deriving DecidableEq, Repr

/-- Python iteration over an `out` entry `t = (name, attributes)`. -/
def Param.fields (p : Param) : List PyVal := [.str p.name, .obj p.attrs]

/-- Lines 78-79: `externs['parameters']['out'] = [t for t in
externs['parameters']['out'] if not any(x == y for x in hv_midi_messages
for y in t)]` — the list kept on the right-hand side. -/
def removeMidiOut (out : List Param) : List Param :=
  out.filter fun t => !(hv_midi_messages.any fun x => t.fields.any fun y => pyEq (.str x) y)

/-- The externs structure handed to `compile` by the caller, restricted to
the parts `compile` reads: `externs['parameters']['in']` and
`externs['parameters']['out']`. -/
structure Externs where
  in_params : List Param
  out_params : List Param
deriving DecidableEq, Repr

/-- The net effect of `compile` on the caller-supplied `externs` value:
line 78 assigns the filtered list back into the caller's dictionary. -/
def compileExternsEffect (e : Externs) : Externs :=
  { e with out_params := removeMidiOut e.out_params }

/-- The filter of line 79 tests the name field and nothing else: the
attribute object is never `==` to any reserved name string. -/
lemma removeMidiOut_eq_filter (out : List Param) :
    removeMidiOut out = out.filter fun p => decide (p.name ∉ hv_midi_messages) := by
  unfold removeMidiOut
  congr 1
  funext t
  simp only [Param.fields, pyEq, List.any_cons, List.any_nil, Bool.or_false, decide_not]
  rw [Bool.eq_iff_iff]
  simp [List.any_eq_true]
  exact ⟨fun h hmem => h _ hmem rfl, fun h x hx he => h (he ▸ hx)⟩

/-! ## Hardware metadata and derived configuration (lines 47-53, 81-139) -/

/-- Python value of the `libdaisy_path` key: integer parent-levels or an
explicit path string (line 133-136 branches on `isinstance`). -/
inductive PyIntOrStr where
  | int : Int → PyIntOrStr
  | str : String → PyIntOrStr
deriving DecidableEq, Repr

/-- The `daisy` metadata dictionary as read by `compile`; `none` models an
absent key (Python `dict.get` returning `None`). -/
structure DaisyMeta where
  board : Option String := none
  board_file : Option String := none
  samplerate : Option Int := none
  blocksize : Option Int := none
  debug_printing : Option Bool := none
  usb_midi : Option Bool := none
  linker_script : Option String := none
  bootloader : Option String := none
  libdaisy_path : Option PyIntOrStr := none
deriving DecidableEq, Repr

/-- Line 53: `board = daisy_meta.get("board", "pod")`. -/
def boardOf (m : DaisyMeta) : String := m.board.getD "pod"

/-- Which external resolver produces the board header. -/
inductive HeaderSource where
  | fromFile : String → HeaderSource
  | fromName : String → HeaderSource
deriving DecidableEq, Repr

/-- Lines 72-75: `if daisy_meta.get('board_file'):
generate_header_from_file(daisy_meta['board_file']) else:
generate_header_from_name(board)`.  The `if` tests Python truthiness of
the retrieved value: an absent key gives `None` (falsy) and an
empty-string path is also falsy. -/
def headerSource (m : DaisyMeta) : HeaderSource :=
  match m.board_file with
  | some f => if f ≠ "" then .fromFile f else .fromName (boardOf m)
  | none => .fromName (boardOf m)

/-- The capability descriptor returned by the external header generator,
restricted to the fields `compile` reads (lines 82-88). -/
structure BoardInfo where
  name : String
  channels : Int
  has_midi : Bool
deriving DecidableEq, Repr

/-- The `component_glue` entries computed by `compile` itself
(lines 83-112); the per-control glue from the external
`parameters.parse_parameters` is outside this slice. -/
structure ComponentGlue where
  class_name : String
  patch_name : String
  header : String
  max_channels : Int
  num_output_channels : Int
  has_midi : Bool
  debug_printing : Bool
  usb_midi : Bool
  samplerate : Int
  blocksize : Option Int
  copyright : String
deriving DecidableEq, Repr

/-- Lines 83-112: population of `component_glue` from the metadata, the
board descriptor and the caller's arguments. -/
def buildComponentGlue (m : DaisyMeta) (board_info : BoardInfo)
    (patch_name : String) (num_output_channels : Int)
    (copyright_c : String) : ComponentGlue :=
  { class_name := board_info.name
    patch_name := patch_name
    header := "HeavyDaisy_" ++ patch_name ++ ".hpp"
    max_channels := board_info.channels
    num_output_channels := num_output_channels
    has_midi := board_info.has_midi
    debug_printing := m.debug_printing.getD false
    usb_midi := m.usb_midi.getD false
    samplerate := resolve_samplerate (m.samplerate.getD 48000)
    blocksize := resolve_blocksize m.blocksize
    copyright := copyright_c }

/-- Lines 132-136: `path = daisy_meta.get('libdaisy_path', 2)`, an integer
becomes `f'{"../" * path}libdaisy'` (Python string repetition is empty for
a non-positive count, hence `Int.toNat`), a string is used verbatim. -/
def resolve_libdaisy_path (v : Option PyIntOrStr) : String :=
  match v.getD (.int 2) with
  | .int n => String.join (List.replicate n.toNat "../") ++ "libdaisy"
  | .str s => s

/-- The `makefile_replacements` dictionary (lines 126-139). -/
structure MakefileReplacements where
  name : String
  linker_script : String
  libdaisy_path : String
  bootloader : String
  debug_printing : Bool
deriving DecidableEq, Repr

/-- Lines 126-139.  Lines 127-129 default `linker_script` to `""` and
re-read the key when the default was not taken; the net effect is
`getD ""`. -/
def buildMakefileReplacements (m : DaisyMeta) (patch_name : String) :
    MakefileReplacements :=
  { name := patch_name
    linker_script := m.linker_script.getD ""
    libdaisy_path := resolve_libdaisy_path m.libdaisy_path
    bootloader := m.bootloader.getD ""
    debug_printing := m.debug_printing.getD false }

/-! ## Generation report (lines 145-179) -/

/-- One entry of the `errors` list of a report. -/
structure ErrorEntry where
  enum : Int
  message : String
deriving DecidableEq, Repr

/-- The `notifs` block of a report.  The captured Python exception object
is represented by its message string (`str(e)`). -/
structure Notifs where
  has_error : Bool
  exception : Option String
  warnings : List String
  errors : List ErrorEntry
deriving DecidableEq, Repr

/-- The dictionary returned by `compile` (lines 147-179).  The
`compile_time` entry is elapsed wall-clock time and is not modelled. -/
structure GenerationReport where
  stage : String
  notifs : Notifs
  in_dir : String
  in_file : String
  out_dir : String
  out_file : String
deriving DecidableEq, Repr

/-- The report built by `compile` from the outcome of the try-block
(lines 59-143): `except Exception` on line 162 catches every exception
raised inside, so the body is an `Except` value and `compile` is total.
On success `out_file` is `os.path.basename(daisy_h_path)` (line 158), the
header name of line 114; on failure it is `""` (line 177) and `errors`
holds the single entry `{"enum": -1, "message": str(e)}`. -/
def compileReport (c_src_dir out_dir patch_name : String)
    (body : Except String Unit) : GenerationReport :=
  match body with
  | .ok _ =>
    { stage := "c2daisy"
      notifs := { has_error := false, exception := none, warnings := [], errors := [] }
      in_dir := c_src_dir
      in_file := ""
      out_dir := out_dir
      out_file := "HeavyDaisy_" ++ patch_name ++ ".hpp" }
  | .error e =>
    { stage := "c2daisy"
      notifs := { has_error := true, exception := some e, warnings := [], errors := [⟨-1, e⟩] }
      in_dir := c_src_dir
      in_file := ""
      out_dir := out_dir
      out_file := "" }

/-! ## Materialization of the output tree (lines 59-143) -/

/-- A filesystem path as a list of segments. -/
abbrev FsPath := List String

/-- A filesystem: a partial map from paths to file contents.  Directories
are implicit in the paths of the files they contain. -/
abbrev Fs := FsPath → Option String

/-- `shutil.rmtree(out_dir)` (line 63): every file at or below `d` is
gone. -/
def rmtree (d : FsPath) (fs : Fs) : Fs :=
  fun p => if d <+: p then none else fs p

/-- Writing one file (lines 115-116, 123-124, 142-143). -/
def writeFs (q : FsPath) (c : String) (fs : Fs) : Fs :=
  fun p => if p = q then some c else fs p

/-- `shutil.copytree(tree, dst)` (lines 66, 70): every file of the source
tree appears below `dst`; other paths are untouched.  (`copytree` faults
if the destination exists; `materialize` only invokes it below the
directory just cleared on line 63, so the embedding keeps the successful
behaviour.) -/
def copytree (tree : List (FsPath × String)) (dst : FsPath) (fs : Fs) : Fs :=
  fun p =>
    if dst <+: p then
      match tree.lookup (p.drop dst.length) with
      | some c => some c
      | none => fs p
    else fs p

/-- The data consumed by the file-writing steps of `compile`: the static
asset tree, the compiled C source tree, the generated board-header text,
the two rendered templates, and the patch name. -/
structure MaterializeIn where
  static_tree : List (FsPath × String)
  src_tree : List (FsPath × String)
  header : String
  rendered_cpp : String
  rendered_makefile : String
  patch_name : String

/-- The file-writing steps of `compile` in source order: clear `out_dir`
(lines 61-63), copy the static assets to `out_dir` (line 66), copy the
compiled C source into `out_dir/source` (lines 69-70), write the board
header `source/HeavyDaisy_<patch_name>.hpp` (lines 114-116), the rendered
`source/HeavyDaisy_<patch_name>.cpp` (lines 120-124) and the rendered
`source/Makefile` (lines 141-143). -/
def materialize (i : MaterializeIn) (out_dir : FsPath) (fs : Fs) : Fs :=
  writeFs (out_dir ++ ["source", "Makefile"]) i.rendered_makefile
    (writeFs (out_dir ++ ["source", "HeavyDaisy_" ++ i.patch_name ++ ".cpp"]) i.rendered_cpp
      (writeFs (out_dir ++ ["source", "HeavyDaisy_" ++ i.patch_name ++ ".hpp"]) i.header
        (copytree i.src_tree (out_dir ++ ["source"])
          (copytree i.static_tree out_dir
            (rmtree out_dir fs)))))

/-- Below `out_dir` the result of `materialize` does not depend on the
prior filesystem: the `rmtree` of line 63 severs it. -/
lemma materialize_inside (i : MaterializeIn) (out_dir : FsPath) (fs fs' : Fs)
    (p : FsPath) (hp : out_dir <+: p) :
    materialize i out_dir fs p = materialize i out_dir fs' p := by
  simp only [materialize, writeFs, copytree, rmtree, if_pos hp]

/-- Outside `out_dir`, `materialize` touches nothing. -/
lemma materialize_outside (i : MaterializeIn) (out_dir : FsPath) (fs : Fs)
    (p : FsPath) (hp : ¬ out_dir <+: p) :
    materialize i out_dir fs p = fs p := by
  have hsrc : ¬ (out_dir ++ ["source"]) <+: p := fun h =>
    hp ((List.prefix_append out_dir ["source"]).trans h)
  have hne : ∀ x : String, p ≠ out_dir ++ ["source", x] := by
    intro x he
    exact hp (he ▸ List.prefix_append out_dir ["source", x])
  simp only [materialize, writeFs, copytree, rmtree,
    if_neg (hne "Makefile"), if_neg (hne ("HeavyDaisy_" ++ i.patch_name ++ ".cpp")),
    if_neg (hne ("HeavyDaisy_" ++ i.patch_name ++ ".hpp")),
    if_neg hsrc, if_neg hp]

/-! ## Theorems: C1, C2, C10 -/

/-- C1: `resolve_samplerate` returns the largest tier `≤ r`, with 8000 as
the floor for `r < 8000`; the result is always one of the five tiers and
equals `r` when `r` is itself a tier. -/
theorem samplerate_ladder (r : Int) :
    resolve_samplerate r ∈ tiers ∧
    (∀ t ∈ tiers, t ≤ r → t ≤ resolve_samplerate r) ∧
    (8000 ≤ r → resolve_samplerate r ≤ r) ∧
    (r < 8000 → resolve_samplerate r = 8000) ∧
    (r ∈ tiers → resolve_samplerate r = r) := by
  simp only [resolve_samplerate, tiers, List.mem_cons, List.not_mem_nil, or_false,
    forall_eq_or_imp, forall_eq]
  split_ifs <;> omega

/-- Witness for C1 at concrete inputs: 44100 resolves to 32000 and the
below-floor hypothesis is discharged at 7000. -/
theorem samplerate_ladder_witness :
    resolve_samplerate 7000 = 8000 ∧ resolve_samplerate 96000 ≤ 96000 := by
  exact ⟨(samplerate_ladder 7000).2.2.2.1 (by decide),
         (samplerate_ladder 96000).2.2.1 (by decide)⟩

/-- C2 counterexample: a present blocksize 0 is below 1, but the resolved
blocksize is the absent sentinel, not the clamp result 1. -/
theorem blocksize_zero_not_clamped :
    (0 : Int) < 1 ∧ resolve_blocksize (some 0) = none ∧
      resolve_blocksize (some 0) ≠ some 1 := by
  refine ⟨by decide, rfl, by decide⟩

/-- C2 (amended): absent blocksize stays absent; a present *nonzero*
blocksize is clamped to [1, 256] (identity on [1,256], 256 above, 1 below);
a present blocksize of exactly 0 is treated as absent. -/
theorem blocksize_clamped (b : Option Int) :
    (b = none → resolve_blocksize b = none) ∧
    (b = some 0 → resolve_blocksize b = none) ∧
    (∀ v : Int, b = some v → v ≠ 0 →
      ((1 ≤ v → v ≤ 256 → resolve_blocksize b = some v) ∧
       (256 < v → resolve_blocksize b = some 256) ∧
       (v < 1 → resolve_blocksize b = some 1))) := by
  refine ⟨fun h => by simp [h, resolve_blocksize], fun h => by simp [h, resolve_blocksize], ?_⟩
  rintro v rfl hv
  simp only [resolve_blocksize, if_pos hv]
  refine ⟨fun h1 h2 => ?_, fun h => ?_, fun h => ?_⟩ <;> congr 1 <;> omega

/-- Witness for C2 (amended) at concrete inputs. -/
theorem blocksize_clamped_witness :
    resolve_blocksize (some 300) = some 256 ∧
    resolve_blocksize (some 64) = some 64 ∧
    resolve_blocksize (some (-5)) = some 1 := by
  refine ⟨((blocksize_clamped (some 300)).2.2 300 rfl (by decide)).2.1 (by decide),
          ((blocksize_clamped (some 64)).2.2 64 rfl (by decide)).1 (by decide) (by decide),
          ((blocksize_clamped (some (-5))).2.2 (-5) rfl (by decide)).2.2 (by decide)⟩

/-- C10: a requested blocksize of 0 resolves to the unset sentinel, exactly
as an absent blocksize does, because presence is decided by truthiness. -/
theorem blocksize_zero_is_absent :
    resolve_blocksize (some 0) = none ∧ resolve_blocksize none = none :=
  ⟨rfl, rfl⟩

/-! ## Theorems: C4, C6 -/

/-- C4 counterexample: `__hv_midioutport` is the reserved name
`__hv_midiout` with the extra characters `port` appended, yet a parameter
so named is removed, not retained — the extended name is itself reserved. -/
theorem midiout_port_removed :
    ("__hv_midiout" ++ "port" : String) = "__hv_midioutport" ∧
    "__hv_midiout" ∈ hv_midi_messages ∧
    removeMidiOut [⟨"__hv_midiout" ++ "port", 0⟩] = [] := by
  refine ⟨rfl, by decide, by decide⟩

/-- C4 (amended): the classifier removes exactly those parameters whose
name exactly matches a reserved protocol-event name (never by substring,
and never on the attribute part of the entry), preserving the relative
order of the retained parameters; a name extending a reserved name is
retained precisely when the extended name is not itself reserved — in
particular the spec's `n + "_extra"` examples are all retained. -/
theorem classifier_exact_name_match (out : List Param) :
    removeMidiOut out = (out.filter fun p => decide (p.name ∉ hv_midi_messages)) ∧
    (removeMidiOut out).Sublist out ∧
    (∀ p ∈ out, p.name ∉ hv_midi_messages → p ∈ removeMidiOut out) ∧
    (∀ p ∈ out, p.name ∈ hv_midi_messages → p ∉ removeMidiOut out) ∧
    (∀ n ∈ hv_midi_messages, (n ++ "_extra") ∉ hv_midi_messages) := by
  refine ⟨removeMidiOut_eq_filter out, ?_, ?_, ?_, by decide⟩
  · rw [removeMidiOut_eq_filter]
    exact List.filter_sublist out
  · intro p hp hname
    rw [removeMidiOut_eq_filter]
    exact List.mem_filter.mpr ⟨hp, by simpa using hname⟩
  · intro p _ hname hmem
    rw [removeMidiOut_eq_filter] at hmem
    exact (by simpa using (List.mem_filter.mp hmem).2 : p.name ∉ hv_midi_messages) hname

/-- Witness for C4 (amended) at a concrete parameter list: the exactly
matching name is removed, the extended name `__hv_noteout_extra` and an
unrelated name survive in their original order. -/
theorem classifier_exact_name_match_witness :
    removeMidiOut [⟨"knob1", 0⟩, ⟨"__hv_noteout", 1⟩, ⟨"__hv_noteout_extra", 2⟩] =
      [⟨"knob1", 0⟩, ⟨"__hv_noteout_extra", 2⟩] ∧
    (⟨"__hv_noteout", 1⟩ : Param) ∉
      removeMidiOut [⟨"knob1", 0⟩, ⟨"__hv_noteout", 1⟩, ⟨"__hv_noteout_extra", 2⟩] := by
  constructor
  · decide
  · exact (classifier_exact_name_match _).2.2.2.1 ⟨"__hv_noteout", 1⟩ (by decide) (by decide)

/-- C6 counterexample: with an output parameter named `__hv_noteout`, the
externs value observed after `compile` differs from the one supplied —
line 78 reassigns `externs['parameters']['out']` in the caller's
dictionary. -/
theorem externs_mutated :
    compileExternsEffect ⟨[], [⟨"__hv_noteout", 0⟩]⟩ ≠ ⟨[], [⟨"__hv_noteout", 0⟩]⟩ := by
  decide

/-- C6 (amended): `compile` never mutates an individual parameter
descriptor and never touches the input-parameter list, but it does mutate
the externs structure itself: the output-parameter list is replaced by its
filtered sublist, so externs is left observably unchanged exactly when no
output parameter bears a reserved protocol-event name. -/
theorem externs_effect_is_filter (e : Externs) :
    (compileExternsEffect e).in_params = e.in_params ∧
    (compileExternsEffect e).out_params.Sublist e.out_params ∧
    (∀ p ∈ (compileExternsEffect e).out_params, p ∈ e.out_params) ∧
    (compileExternsEffect e = e ↔ ∀ p ∈ e.out_params, p.name ∉ hv_midi_messages) := by
  obtain ⟨pin, pout⟩ := e
  refine ⟨rfl, ?_, ?_, ?_⟩
  · show (removeMidiOut pout).Sublist pout
    rw [removeMidiOut_eq_filter]
    exact List.filter_sublist pout
  · intro p hp
    simp only [compileExternsEffect, removeMidiOut_eq_filter] at hp
    exact (List.mem_filter.mp hp).1
  · simp [compileExternsEffect, removeMidiOut_eq_filter, Externs.mk.injEq,
      List.filter_eq_self]

/-- Witness for C6 (amended): a concrete externs value with no reserved
output name passes through `compile` unchanged. -/
theorem externs_effect_is_filter_witness :
    compileExternsEffect ⟨[⟨"freq", 0⟩], [⟨"level", 1⟩]⟩ = ⟨[⟨"freq", 0⟩], [⟨"level", 1⟩]⟩ := by
  exact (externs_effect_is_filter ⟨[⟨"freq", 0⟩], [⟨"level", 1⟩]⟩).2.2.2.mpr (by decide)

/-! ## Theorems: C7, C9, C3 -/

/-- C7 counterexample: metadata that sets `board_file` (to the empty
string) while also naming a board: header generation uses the board-name
resolver, not the board-file resolver, because line 72 tests truthiness
and the empty string is falsy. -/
theorem board_file_empty_uses_name :
    headerSource { board := some "seed", board_file := some "" } = .fromName "seed" ∧
    headerSource { board := some "seed", board_file := some "" } ≠ .fromFile "" := by
  exact ⟨rfl, by decide⟩

/-- C7 (amended): when `board_file` is set to a non-empty path, header
generation uses the board-file resolver even if a board name is also
present; when `board_file` is absent (or set to the falsy empty string)
the board-name resolver is used with the board name, which defaults to
"pod". -/
theorem header_resolver_choice (m : DaisyMeta) :
    (∀ f, m.board_file = some f → f ≠ "" → headerSource m = .fromFile f) ∧
    (m.board_file = none → headerSource m = .fromName (boardOf m)) ∧
    (m.board_file = some "" → headerSource m = .fromName (boardOf m)) ∧
    (m.board = none → boardOf m = "pod") := by
  refine ⟨?_, ?_, ?_, ?_⟩
  · intro f hf hne
    simp [headerSource, hf, hne]
  · intro h
    simp [headerSource, h]
  · intro h
    simp [headerSource, h]
  · intro h
    simp [boardOf, h]

/-- Witness for C7 (amended): a non-empty `board_file` wins over a named
board, and fully absent metadata resolves by name "pod". -/
theorem header_resolver_choice_witness :
    headerSource { board := some "seed", board_file := some "custom.json" } =
      .fromFile "custom.json" ∧
    headerSource {} = .fromName "pod" := by
  refine ⟨(header_resolver_choice _).1 "custom.json" rfl (by decide), ?_⟩
  exact (header_resolver_choice {}).2.1 rfl

/-- C9: every missing optional hardware-metadata key receives its
documented default: samplerate 48000 (which the ladder maps to the 48000
tier), blocksize unset, debug_printing and usb_midi false, libdaisy_path
the integer 2 which resolves to "../../libdaisy"; an integer level `n`
resolves to `n` repetitions of "../" followed by "libdaisy", and a string
value is used verbatim. -/
theorem metadata_defaults (m : DaisyMeta) (bi : BoardInfo)
    (pn cc : String) (noc : Int) :
    (m.samplerate = none → (buildComponentGlue m bi pn noc cc).samplerate = 48000) ∧
    (m.blocksize = none → (buildComponentGlue m bi pn noc cc).blocksize = none) ∧
    (m.debug_printing = none → (buildComponentGlue m bi pn noc cc).debug_printing = false) ∧
    (m.usb_midi = none → (buildComponentGlue m bi pn noc cc).usb_midi = false) ∧
    (m.libdaisy_path = none →
      (buildMakefileReplacements m pn).libdaisy_path = "../../libdaisy") ∧
    (∀ n : Nat, resolve_libdaisy_path (some (.int n)) =
      String.join (List.replicate n "../") ++ "libdaisy") ∧
    (∀ s, resolve_libdaisy_path (some (.str s)) = s) := by
  refine ⟨fun h => ?_, fun h => ?_, fun h => ?_, fun h => ?_, fun h => ?_,
    fun n => ?_, fun s => rfl⟩
  · simp [buildComponentGlue, h, resolve_samplerate]
  · simp [buildComponentGlue, h, resolve_blocksize]
  · simp [buildComponentGlue, h]
  · simp [buildComponentGlue, h]
  · simp only [buildMakefileReplacements, h, resolve_libdaisy_path, Option.getD_none]
    rfl
  · simp [resolve_libdaisy_path]

/-- Witness for C9 at concrete inputs: the empty metadata object yields
every default, three parent levels yield "../../../libdaisy", and an
explicit path string passes through. -/
theorem metadata_defaults_witness :
    (buildComponentGlue {} ⟨"pod", 2, true⟩ "Test" 2 "(c)").samplerate = 48000 ∧
    (buildComponentGlue {} ⟨"pod", 2, true⟩ "Test" 2 "(c)").blocksize = none ∧
    (buildMakefileReplacements {} "Test").libdaisy_path = "../../libdaisy" ∧
    resolve_libdaisy_path (some (.str "/opt/libdaisy")) = "/opt/libdaisy" := by
  refine ⟨(metadata_defaults {} ⟨"pod", 2, true⟩ "Test" "(c)" 2).1 rfl,
          (metadata_defaults {} ⟨"pod", 2, true⟩ "Test" "(c)" 2).2.1 rfl,
          (metadata_defaults {} ⟨"pod", 2, true⟩ "Test" "(c)" 2).2.2.2.2.1 rfl,
          (metadata_defaults {} ⟨"pod", 2, true⟩ "Test" "(c)" 2).2.2.2.2.2.2 "/opt/libdaisy"⟩

/-- A concatenation beginning with the nonempty literal "HeavyDaisy_" is
never the empty string. -/
lemma header_name_ne_empty (pn : String) :
    ("HeavyDaisy_" ++ pn ++ ".hpp" : String) ≠ "" := by
  intro h
  have hl := congrArg String.length h
  rw [String.length_append, String.length_append] at hl
  have h1 : ("HeavyDaisy_" : String).length = 11 := rfl
  have h2 : (".hpp" : String).length = 4 := rfl
  have h0 : ("" : String).length = 0 := rfl
  rw [h1, h2, h0] at hl
  omega

/-- C3: the report returned by `compile` satisfies the contract for every
outcome of the pipeline body — the function is total, so no exception
crosses the call boundary: on success the notification block is clean and
`out_file` is the nonempty header base name; on failure the captured fault
is retained, `errors` is exactly the single entry `{enum := -1, message :=
cause}`, and `out_file` is empty. -/
theorem compile_report_contract (c_src_dir out_dir patch_name : String)
    (body : Except String Unit) :
    (body = .ok () →
      (compileReport c_src_dir out_dir patch_name body).notifs.has_error = false ∧
      (compileReport c_src_dir out_dir patch_name body).notifs.exception = none ∧
      (compileReport c_src_dir out_dir patch_name body).notifs.warnings = [] ∧
      (compileReport c_src_dir out_dir patch_name body).notifs.errors = [] ∧
      (compileReport c_src_dir out_dir patch_name body).out_file =
        "HeavyDaisy_" ++ patch_name ++ ".hpp" ∧
      (compileReport c_src_dir out_dir patch_name body).out_file ≠ "") ∧
    (∀ e, body = .error e →
      (compileReport c_src_dir out_dir patch_name body).notifs.has_error = true ∧
      (compileReport c_src_dir out_dir patch_name body).notifs.exception = some e ∧
      (compileReport c_src_dir out_dir patch_name body).notifs.warnings = [] ∧
      (compileReport c_src_dir out_dir patch_name body).notifs.errors = [⟨-1, e⟩] ∧
      (compileReport c_src_dir out_dir patch_name body).out_file = "") := by
  constructor
  · rintro rfl
    exact ⟨rfl, rfl, rfl, rfl, rfl, header_name_ne_empty patch_name⟩
  · rintro e rfl
    exact ⟨rfl, rfl, rfl, rfl, rfl⟩

/-- Witness for C3 at concrete outcomes: a successful body and a body that
failed with the message "boom". -/
theorem compile_report_contract_witness :
    (compileReport "/in" "/out/daisy" "Test" (.ok ())).notifs.has_error = false ∧
    (compileReport "/in" "/out/daisy" "Test" (.ok ())).out_file = "HeavyDaisy_Test.hpp" ∧
    (compileReport "/in" "/out/daisy" "Test" (.error "boom")).notifs.errors =
      [⟨-1, "boom"⟩] ∧
    (compileReport "/in" "/out/daisy" "Test" (.error "boom")).out_file = "" := by
  refine ⟨((compile_report_contract "/in" "/out/daisy" "Test" (.ok ())).1 rfl).1,
          ((compile_report_contract "/in" "/out/daisy" "Test" (.ok ())).1 rfl).2.2.2.2.1,
          ((compile_report_contract "/in" "/out/daisy" "Test" (.error "boom")).2 "boom" rfl).2.2.2.1,
          ((compile_report_contract "/in" "/out/daisy" "Test" (.error "boom")).2 "boom" rfl).2.2.2.2⟩

/-! ## Theorems: C5, C8 -/

/-- C5: materialization starts from a clean slate — below `out_dir` the
resulting tree is a function of the inputs alone (so no file of a stale
`out_dir/daisy` survives), outside `out_dir` nothing changes, and a second
`materialize` with identical inputs and no external mutation in between
reproduces the byte-identical filesystem. -/
theorem materialize_idempotent (i : MaterializeIn) (out_dir : FsPath) (fs fs' : Fs) :
    (∀ p, out_dir <+: p → materialize i out_dir fs p = materialize i out_dir fs' p) ∧
    (∀ p, ¬ out_dir <+: p → materialize i out_dir fs p = fs p) ∧
    materialize i out_dir (materialize i out_dir fs) = materialize i out_dir fs := by
  refine ⟨fun p hp => materialize_inside i out_dir fs fs' p hp,
          fun p hp => materialize_outside i out_dir fs p hp, ?_⟩
  funext p
  by_cases hp : out_dir <+: p
  · exact materialize_inside i out_dir _ fs p hp
  · rw [materialize_outside i out_dir _ p hp]

/-- Witness for C5 at a concrete stale tree: the stale file under
`out/daisy` is gone after materialization, whatever its content was. -/
theorem materialize_idempotent_witness :
    materialize ⟨[(["README"], "static")], [(["patch.c"], "c")], "H", "CPP", "MK", "Test"⟩
      ["out", "daisy"]
      (fun p => if p = ["out", "daisy", "stale.txt"] then some "junk" else none)
      ["out", "daisy", "stale.txt"] = none := by
  have h := (materialize_idempotent
      ⟨[(["README"], "static")], [(["patch.c"], "c")], "H", "CPP", "MK", "Test"⟩
      ["out", "daisy"]
      (fun p => if p = ["out", "daisy", "stale.txt"] then some "junk" else none)
      (fun _ => none)).1 ["out", "daisy", "stale.txt"] (by decide)
  rw [h]
  decide

/-- The header base name is never "Makefile" (the lengths differ). -/
lemma hpp_ne_makefile (pn : String) :
    ("HeavyDaisy_" ++ pn ++ ".hpp" : String) ≠ "Makefile" := by
  intro h
  have hl := congrArg String.length h
  rw [String.length_append, String.length_append] at hl
  have h1 : ("HeavyDaisy_" : String).length = 11 := rfl
  have h2 : (".hpp" : String).length = 4 := rfl
  have h3 : ("Makefile" : String).length = 8 := rfl
  rw [h1, h2, h3] at hl
  omega

/-- The header base name differs from the rendered cpp base name (the
extensions differ). -/
lemma hpp_ne_cpp (pn : String) :
    ("HeavyDaisy_" ++ pn ++ ".hpp" : String) ≠ "HeavyDaisy_" ++ pn ++ ".cpp" := by
  intro h
  have hd := congrArg String.data h
  simp only [String.data_append] at hd
  have h2 := List.append_cancel_left hd
  exact absurd h2 (by decide)

/-- C8: the generated board header is written to
`source/HeavyDaisy_<patch_name>.hpp` below the output directory, with the
generated header text as its content (the two later writes target other
files), the success report's `out_file` equals that header's base name,
and patch name "Test" yields "HeavyDaisy_Test.hpp". -/
theorem header_output_location (i : MaterializeIn) (out_dir : FsPath) (fs : Fs)
    (c_src_dir od : String) :
    materialize i out_dir fs
      (out_dir ++ ["source", "HeavyDaisy_" ++ i.patch_name ++ ".hpp"]) = some i.header ∧
    (compileReport c_src_dir od i.patch_name (.ok ())).out_file =
      "HeavyDaisy_" ++ i.patch_name ++ ".hpp" ∧
    ("HeavyDaisy_" ++ "Test" ++ ".hpp" : String) = "HeavyDaisy_Test.hpp" := by
  refine ⟨?_, rfl, rfl⟩
  have hmk : out_dir ++ ["source", "HeavyDaisy_" ++ i.patch_name ++ ".hpp"] ≠
      out_dir ++ ["source", "Makefile"] := by
    intro h
    have h3 : ("HeavyDaisy_" ++ i.patch_name ++ ".hpp" : String) = "Makefile" := by
      simpa using List.append_cancel_left h
    exact hpp_ne_makefile i.patch_name h3
  have hcpp : out_dir ++ ["source", "HeavyDaisy_" ++ i.patch_name ++ ".hpp"] ≠
      out_dir ++ ["source", "HeavyDaisy_" ++ i.patch_name ++ ".cpp"] := by
    intro h
    have h3 : ("HeavyDaisy_" ++ i.patch_name ++ ".hpp" : String) =
        "HeavyDaisy_" ++ i.patch_name ++ ".cpp" := by
      simpa using List.append_cancel_left h
    exact hpp_ne_cpp i.patch_name h3
  simp only [materialize, writeFs, if_neg hmk, if_neg hcpp, if_pos rfl, if_true]

end C2Daisy
